import Mathlib

set_option maxRecDepth 8000

/-!
Verification of the PRISM-Baseline backend (CASVE decision-support API).

Shallow embedding of the Python sources:
  BE/services/openai_service.py  (prompt builder, system-prompt builder, client wrapper)
  BE/routers/llm.py              (generate-options handler: fence stripping, JSON parse, logging)
  BE/routers/report.py           (save-report handler)
  BE/utils/logger.py             (per-session JSON file loggers)

Python strings are modelled as `List Char`; `json.loads` is modelled by a
character-level state machine `parseJson`; the on-disk JSON log files are
modelled at the level of their parsed content (`FileState`), since the code
round-trips them through `json.dump`/`json.load`.
-/

namespace Prism

/-- Coerce a Lean string literal to the `List Char` representation used for
Python strings throughout this development. -/
def s (x : String) : List Char := x.data

/-- Whitespace stripped by Python's `str.strip()` (ASCII part: space, tab,
newline, carriage return, vertical tab, form feed). -/
def isPyWs (c : Char) : Bool :=
  c = ' ' || c = '\t' || c = '\n' || c = '\r' || c = '\x0b' || c = '\x0c'

/-- Leading-whitespace strip (`str.lstrip()`). -/
def stripL (x : List Char) : List Char := x.dropWhile isPyWs

/-- Trailing-whitespace strip (`str.rstrip()`). -/
def stripR (x : List Char) : List Char := (x.reverse.dropWhile isPyWs).reverse

/-- Python `str.strip()`. -/
def pyStrip (x : List Char) : List Char := stripR (stripL x)

/-- One step of the scan behind `pySplit`: accumulate the current piece (kept
in reverse) and close it whenever it ends with the separator. -/
def splitStep (sep : List Char) (st : List (List Char) × List Char) (c : Char) :
    List (List Char) × List Char :=
  let cur := c :: st.2
  if sep.reverse.isPrefixOf cur then (st.1 ++ [(cur.drop sep.length).reverse], [])
  else (st.1, cur)

/-- Python `str.split(sep)` for a non-empty separator: leftmost,
non-overlapping occurrences. -/
def pySplit (sep x : List Char) : List (List Char) :=
  let st := x.foldl (splitStep sep) ([], [])
  st.1 ++ [st.2.reverse]

/-- Python `str.lower()` (ASCII case mapping, which is all the code relies on). -/
def pyLower (x : List Char) : List Char := x.map Char.toLower

/-- Python `str.replace(a, b)` for single-character arguments. -/
def pyReplace (x : List Char) (a b : Char) : List Char :=
  x.map (fun c => if c = a then b else c)

/-- Python `sep.join(xs)`. -/
def pyJoin (sep : List Char) (xs : List (List Char)) : List Char :=
  sep.intercalate xs

/-! ## JSON values and `json.loads`

JSON values as produced by Python's `json.loads`.  Numbers keep their source
lexeme (the code never computes with them), objects keep insertion order with
last-wins duplicate handling exactly like a Python `dict`. -/

inductive Json where
  | null : Json
  | jbool : Bool → Json
  | num : List Char → Json
  | jstr : List Char → Json
  | arr : List Json → Json
  | obj : List (List Char × Json) → Json

/-- Whitespace accepted between JSON tokens by `json.loads`. -/
def jsonWs (c : Char) : Bool := c = ' ' || c = '\t' || c = '\n' || c = '\r'

/-- Characters that may continue a number token. -/
def numChar (c : Char) : Bool :=
  c.isDigit || c = '-' || c = '+' || c = '.' || c = 'e' || c = 'E'

/-- Hexadecimal digit value, for `\uXXXX` escapes. -/
def hexVal (c : Char) : Option Nat :=
  if c.isDigit then some (c.toNat - 48)
  else if 'a' ≤ c ∧ c ≤ 'f' then some (c.toNat - 87)
  else if 'A' ≤ c ∧ c ≤ 'F' then some (c.toNat - 55)
  else none

/-- Decode a 4-hex-digit escape to a character (surrogate pairs are out of
scope for this development; no claim touches them). -/
def hexChar (h : List Char) : Char :=
  Char.ofNat (h.foldl (fun n c => 16 * n + (hexVal c).getD 0) 0)

/-- Single-character string escapes accepted by JSON. -/
def escChar (c : Char) : Option Char :=
  if c = '"' then some '"'
  else if c = '\\' then some '\\'
  else if c = '/' then some '/'
  else if c = 'b' then some '\x08'
  else if c = 'f' then some '\x0c'
  else if c = 'n' then some '\n'
  else if c = 'r' then some '\r'
  else if c = 't' then some '\t'
  else none

/-- JSON number grammar `-?(0|[1-9][0-9]*)(\.[0-9]+)?([eE][+-]?[0-9]+)?`:
integer part. -/
def vInt : List Char → Option (List Char)
  | [] => none
  | c :: rest =>
    if c = '0' then some rest
    else if c.isDigit then some (rest.dropWhile Char.isDigit)
    else none

/-- JSON number grammar: optional fraction part. -/
def vFrac : List Char → Option (List Char)
  | '.' :: rest =>
    if (rest.takeWhile Char.isDigit).isEmpty then none
    else some (rest.dropWhile Char.isDigit)
  | l => some l

/-- JSON number grammar: optional exponent part. -/
def vExp : List Char → Option (List Char)
  | c :: rest =>
    if c = 'e' ∨ c = 'E' then
      let rest' := match rest with
        | d :: rest' => if d = '+' ∨ d = '-' then rest' else d :: rest'
        | [] => []
      if (rest'.takeWhile Char.isDigit).isEmpty then none
      else some (rest'.dropWhile Char.isDigit)
    else some (c :: rest)
  | [] => some []

/-- Full JSON number validation of a lexeme. -/
def validNum (l : List Char) : Bool :=
  let l' := if l.head? = some '-' then l.tail else l
  match vInt l' with
  | none => false
  | some r1 =>
    match vFrac r1 with
    | none => false
    | some r2 =>
      match vExp r2 with
      | none => false
      | some r3 => r3.isEmpty

/-- A container being built: an array with its finished elements, or an
object with its finished members and the key whose value is pending. -/
inductive Ctx where
  | carr : List Json → Ctx
  | cobj : List (List Char × Json) → List Char → Ctx

/-- Continuation of a string literal: a value string, or an object key
(carrying the members finished so far). -/
inductive StrT where
  | valueStr : StrT
  | keyStr : List (List Char × Json) → StrT

/-- Parser states of the `json.loads` machine. -/
inductive S where
  | err : S
  | sval : List Ctx → S
  | sarrStart : List Ctx → S
  | sobjStart : List Ctx → S
  | sobjKey : List Ctx → List (List Char × Json) → S
  | sobjColon : List Ctx → List (List Char × Json) → List Char → S
  | sstr : List Ctx → StrT → List Char → S
  | sesc : List Ctx → StrT → List Char → S
  | shex : List Ctx → StrT → List Char → List Char → S
  | snum : List Ctx → List Char → S
  | slit : List Ctx → Json → Char → List Char → S
  | safter : List Ctx → Json → S

/-- Python-`dict` insertion: replace the value in place when the key exists,
append otherwise. -/
def objInsert (done : List (List Char × Json)) (k : List Char) (v : Json) :
    List (List Char × Json) :=
  if done.any (fun m => m.1 = k) then
    done.map (fun m => if m.1 = k then (k, v) else m)
  else done ++ [(k, v)]

/-- A completed value meets a non-whitespace character: close the enclosing
container element or fail. -/
def stepAfter (stk : List Ctx) (v : Json) (c : Char) : S :=
  match stk with
  | [] => .err
  | .carr done :: rest =>
    if c = ',' then .sval (.carr (done ++ [v]) :: rest)
    else if c = ']' then .safter rest (.arr (done ++ [v]))
    else .err
  | .cobj done key :: rest =>
    if c = ',' then .sobjKey rest (objInsert done key v)
    else if c = '\x7d' then .safter rest (.obj (objInsert done key v))
    else .err

/-- Dispatch on the first character of a value. -/
def stepVal (stk : List Ctx) (c : Char) : S :=
  if jsonWs c then .sval stk
  else if c = '"' then .sstr stk .valueStr []
  else if c = '\x7b' then .sobjStart stk
  else if c = '[' then .sarrStart stk
  else if c = 't' then .slit stk (.jbool true) 'r' (s "ue")
  else if c = 'f' then .slit stk (.jbool false) 'a' (s "lse")
  else if c = 'n' then .slit stk .null 'u' (s "ll")
  else if c = 'N' then .slit stk (.num (s "NaN")) 'a' (s "N")
  else if c = 'I' then .slit stk (.num (s "Infinity")) 'n' (s "finity")
  else if c.isDigit || c = '-' then .snum stk [c]
  else .err

/-- One character of `json.loads`. -/
def step (st : S) (c : Char) : S :=
  match st with
  | .err => .err
  | .sval stk => stepVal stk c
  | .sarrStart stk =>
    if jsonWs c then .sarrStart stk
    else if c = ']' then .safter stk (.arr [])
    else stepVal (.carr [] :: stk) c
  | .sobjStart stk =>
    if jsonWs c then .sobjStart stk
    else if c = '\x7d' then .safter stk (.obj [])
    else if c = '"' then .sstr stk (.keyStr []) []
    else .err
  | .sobjKey stk done =>
    if jsonWs c then .sobjKey stk done
    else if c = '"' then .sstr stk (.keyStr done) []
    else .err
  | .sobjColon stk done key =>
    if jsonWs c then .sobjColon stk done key
    else if c = ':' then .sval (.cobj done key :: stk)
    else .err
  | .sstr stk k acc =>
    if c = '"' then
      match k with
      | .valueStr => .safter stk (.jstr acc)
      | .keyStr done => .sobjColon stk done acc
    else if c = '\\' then .sesc stk k acc
    else if c.toNat < 32 then .err
    else .sstr stk k (acc ++ [c])
  | .sesc stk k acc =>
    if c = 'u' then .shex stk k acc []
    else
      match escChar c with
      | some d => .sstr stk k (acc ++ [d])
      | none => .err
  | .shex stk k acc hex =>
    match hexVal c with
    | none => .err
    | some _ =>
      if hex.length = 3 then .sstr stk k (acc ++ [hexChar (hex ++ [c])])
      else .shex stk k acc (hex ++ [c])
  | .snum stk acc =>
    if c = 'I' && acc = ['-'] then .slit stk (.num (s "-Infinity")) 'n' (s "finity")
    else if numChar c then .snum stk (acc ++ [c])
    else if validNum acc then
      (if jsonWs c then .safter stk (.num acc) else stepAfter stk (.num acc) c)
    else .err
  | .slit stk v e rest =>
    -- In every reachable literal state `e` is a letter, so the whitespace
    -- guard is redundant there; it only pins down junk states.
    if !(isPyWs c) && c = e then
      match rest with
      | [] => .safter stk v
      | r :: rs => .slit stk v r rs
    else .err
  | .safter stk v =>
    if jsonWs c then .safter stk v else stepAfter stk v c

/-- Result extraction at end of input. -/
def final (st : S) : Option Json :=
  match st with
  | .safter [] v => some v
  | .snum [] acc => if validNum acc then some (.num acc) else none
  | _ => none

/-- `json.loads`: feed every character to the machine, then read off the
result; `none` models `json.JSONDecodeError`. -/
def parseJson (x : List Char) : Option Json :=
  final (x.foldl step (.sval []))

/-! ## Request data model (llm.py pydantic models) -/

/-- `Step0Data` (llm.py): self-profile lists plus optional free-text concerns. -/
structure Step0Data where
  values : List (List Char)
  interests : List (List Char)
  strengths : List (List Char)
  mustHaveConstraints : List (List Char)
  niceToHaveConstraints : List (List Char)
  concerns : Option (List Char)

/-- `Step1Data` (llm.py): problem definition and cue/question lists. -/
structure Step1Data where
  problemDefinition : Option (List Char)
  internalCues : List (List Char)
  externalCues : List (List Char)
  keyQuestions : List (List Char)

/-- An information-template entry: a string-to-string mapping (the code reads
the `field` and `description` keys with `''` defaults). -/
def InfoEntry := List (List Char × List Char)

/-- `Step2Data` (llm.py): evaluation criteria, constraints, template. -/
structure Step2Data where
  evaluationCriteria : List (List Char)
  constraints : List (List Char)
  informationTemplate : List InfoEntry

/-- `GenerateOptionsRequest` (llm.py). -/
structure GenerateOptionsRequest where
  sessionId : List Char
  step0 : Step0Data
  step1 : Step1Data
  step2 : Step2Data

/-- Python `item.get(key, '')` on an information-template entry. -/
def getStr (e : InfoEntry) (k : List Char) : List Char :=
  (List.lookup k e).getD []

/-- Python truthiness of an optional string (`None` and `''` are falsy). -/
def truthyOptStr (o : Option (List Char)) : Bool :=
  match o with
  | none => false
  | some c => !c.isEmpty

/-! ## Prompt Builder (`OpenAIService._build_prompt`) -/

/-- `OpenAIService._build_prompt`: renders Steps 0-2 into the user prompt.
The Values/Interests/Strengths lines are appended unconditionally; every
other field line is guarded by Python truthiness of its value. -/
def buildPrompt (d0 : Step0Data) (d1 : Step1Data) (d2 : Step2Data) : List Char :=
  let parts : List (List Char) :=
    [s "# User Profile and Decision Context\n",
     s "## Step 0: Self Profile",
     s "**Values**: " ++ pyJoin (s ", ") d0.values,
     s "**Interests**: " ++ pyJoin (s ", ") d0.interests,
     s "**Strengths**: " ++ pyJoin (s ", ") d0.strengths]
    ++ (if !d0.mustHaveConstraints.isEmpty then
          [s "**Must-Have Constraints**: " ++ pyJoin (s ", ") d0.mustHaveConstraints] else [])
    ++ (if !d0.niceToHaveConstraints.isEmpty then
          [s "**Nice-to-Have Constraints**: " ++ pyJoin (s ", ") d0.niceToHaveConstraints] else [])
    ++ (if truthyOptStr d0.concerns then
          [s "**Current Concerns**: " ++ d0.concerns.getD []] else [])
    ++ [s "\n## Step 1: Problem Definition"]
    ++ (if truthyOptStr d1.problemDefinition then
          [s "**Decision Problem**: " ++ d1.problemDefinition.getD []] else [])
    ++ (if !d1.internalCues.isEmpty then
          [s "**Internal Signals**: " ++ pyJoin (s ", ") d1.internalCues] else [])
    ++ (if !d1.externalCues.isEmpty then
          [s "**External Signals**: " ++ pyJoin (s ", ") d1.externalCues] else [])
    ++ (if !d1.keyQuestions.isEmpty then
          [s "**Key Questions**: " ++ pyJoin (s ", ") d1.keyQuestions] else [])
    ++ [s "\n## Step 2: Evaluation Criteria"]
    ++ (if !d2.evaluationCriteria.isEmpty then
          [s "**Comparison Criteria**: " ++ pyJoin (s ", ") d2.evaluationCriteria] else [])
    ++ (if !d2.constraints.isEmpty then
          [s "**Additional Constraints**: " ++ pyJoin (s ", ") d2.constraints] else [])
    ++ [s "\n---",
        s "Based on this information, generate exactly 5 personalized career/decision options."]
  pyJoin (s "\n") parts

/-! ## System-prompt builder (`OpenAIService._build_system_prompt`) -/

/-- The derived profile field: key, human label, description. -/
structure ProfileField where
  key : List Char
  label : List Char
  description : List Char

/-- Field-key derivation from `_build_system_prompt` (lines 148-157): if the
label contains both parentheses, the key is
`field_name.split('(')[1].split(')')[0]` and the label is
`field_name.split('(')[0].strip()`; otherwise the key is
`field_name.replace(' ', '_').lower()` and the label is the full name. -/
def deriveField (field_name description : List Char) : ProfileField :=
  if '(' ∈ field_name ∧ ')' ∈ field_name then
    { key := (pySplit (s ")") ((pySplit (s "(") field_name).getD 1 [])).getD 0 []
      label := pyStrip ((pySplit (s "(") field_name).getD 0 [])
      description := description }
  else
    { key := pyLower (pyReplace field_name ' ' '_')
      label := field_name
      description := description }

/-- The `profile_fields` list built from the information template. -/
def profileFields (tmpl : List InfoEntry) : List ProfileField :=
  tmpl.map (fun item => deriveField (getStr item (s "field")) (getStr item (s "description")))

/-- One line of the profile JSON template:
`f'        "{key}": "{label} - {description}"'`. -/
def profileJsonLine (f : ProfileField) : List Char :=
  s "        \"" ++ f.key ++ s "\": \"" ++ f.label ++ s " - " ++ f.description ++ s "\""

/-- Text of the system prompt before the interpolated profile fields. -/
def sysPromptPre : List Char :=
  s "당신은 CASVE (Communication, Analysis, Synthesis, Valuing, Execution) 의사결정 모델을 전문으로 하는 진로 상담 전문가입니다.\n사용자의 프로필, 문제 정의, 분석 기준을 바탕으로 개인화된 진로 또는 의사결정 대안을 생성하는 것이 당신의 임무입니다.\n\n다음 조건을 충족하는 현실적이고 실행 가능한 대안을 정확히 5개 생성하세요:\n1. 사용자의 가치관, 흥미, 강점과 일치\n2. 제약 조건과 우려 사항 고려\n3. 의사결정 문제 해결\n4. 평가 기준으로 비교 가능\n\n응답은 다음 JSON 형식으로만 작성하세요:\n\x7b\n  \"options\": [\n    \x7b\n      \"title\": \"대안 제목 (간결하고 명확하게)\",\n      \"description\": \"2-3문장 개요\",\n      \"profile\": \x7b\n"

/-- Text of the system prompt after the interpolated profile fields. -/
def sysPromptPost : List Char :=
  s "\n      \x7d,\n      \"matchReason\": \"사용자에게 적합한 이유 (2-3문장)\"\n    \x7d\n  ]\n\x7d\n\n반드시 유효한 JSON으로만 응답하고, 추가 텍스트는 작성하지 마세요. 모든 응답은 한글로 작성하세요.\n각 profile 필드는 위에 명시된 키를 정확히 사용하고, 해당 필드에 대한 구체적이고 유용한 정보를 제공하세요."

/-- `OpenAIService._build_system_prompt`. -/
def buildSystemPrompt (tmpl : List InfoEntry) : List Char :=
  sysPromptPre ++ pyJoin (s ",\n") ((profileFields tmpl).map profileJsonLine) ++ sysPromptPost

/-! ## Generation Client (`OpenAIService.generate_options`) -/

/-- Token-usage triple reported by the provider. -/
structure Tokens where
  prompt_tokens : Nat
  completion_tokens : Nat
  total_tokens : Nat

/-- Normalized result of `OpenAIService.generate_options`: the success dict
`{success: True, content, tokens_used, model}` or the failure dict
`{success: False, error}`. -/
inductive ClientResult where
  | ok : List Char → Tokens → List Char → ClientResult
  | failure : List Char → ClientResult

/-- `OpenAIService.generate_options` (lines 42-82): the external
chat-completion call either returns content and usage or raises; the
`try/except` normalizes any exception into the failure dict, so the service
is a total function into `ClientResult`. -/
def serviceGenerateOptions (callResult : Except (List Char) (List Char × Tokens))
    (model : List Char) : ClientResult :=
  match callResult with
  | .ok (content, usage) => .ok content usage model
  | .error e => .failure e

/-! ## Activity Logger (`utils/logger.py`)

A session log file is modelled by what reading and JSON-decoding it yields:
missing, unreadable (OS error on `open`), existing but not valid JSON
(`json.JSONDecodeError`), or valid JSON with a parsed value.  The writers
re-serialize with `json.dump`, which `json.load` reads back identically, so
the value-level view is faithful. -/

inductive FileState where
  | missing : FileState
  | unreadable : FileState
  | invalid : FileState
  | valid : Json → FileState

/-- Message of the `OSError` raised by `open()` on an unreadable file (not
caught by the logger, which only catches `json.JSONDecodeError`). -/
def permErrMsg : List Char := s "[Errno 13] Permission denied"

/-- Message of the `AttributeError` raised by `logs.append` when the decoded
file content is not a list. -/
def attrMsgAppend (j : Json) : List Char :=
  s "\x27" ++ (match j with
    | .null => s "NoneType"
    | .jbool _ => s "bool"
    | .num _ => s "int"
    | .jstr _ => s "str"
    | .arr _ => s "list"
    | .obj _ => s "dict") ++ s "\x27 object has no attribute \x27append\x27"

/-- Read phase of `log_user_activity`/`log_llm_generation` (logger.py): a
missing file yields `[]`; `json.JSONDecodeError` is caught and yields `[]`;
an unreadable file raises out of the function; valid JSON yields its value. -/
def readLogs (fs : FileState) : Except (List Char) Json :=
  match fs with
  | .missing => .ok (.arr [])
  | .unreadable => .error permErrMsg
  | .invalid => .ok (.arr [])
  | .valid j => .ok j

/-- Append phase: `logs.append(entry)` requires a list (else
`AttributeError`), then the whole list is rewritten. -/
def appendEntry (fs : FileState) (entry : Json) : Except (List Char) FileState :=
  match readLogs fs with
  | .error e => .error e
  | .ok (.arr l) => .ok (.valid (.arr (l ++ [entry])))
  | .ok j => .error (attrMsgAppend j)

/-- The activity-log record `{timestamp, activity_type, data}`. -/
def activityEntry (t atype : List Char) (data : Json) : Json :=
  .obj [(s "timestamp", .jstr t), (s "activity_type", .jstr atype), (s "data", data)]

/-- `log_user_activity` (logger.py lines 22-46). -/
def logUserActivity (t atype : List Char) (data : Json) (fs : FileState) :
    Except (List Char) FileState :=
  appendEntry fs (activityEntry t atype data)

/-- Token usage as written into the generation log. -/
def tokensJson (tok : Tokens) : Json :=
  .obj [(s "prompt_tokens", .num (Nat.toDigits 10 tok.prompt_tokens)),
        (s "completion_tokens", .num (Nat.toDigits 10 tok.completion_tokens)),
        (s "total_tokens", .num (Nat.toDigits 10 tok.total_tokens))]

/-- The generation-log record `{timestamp, model, tokens_used, prompt,
response}`. -/
def genEntry (t prompt response model : List Char) (tok : Tokens) : Json :=
  .obj [(s "timestamp", .jstr t), (s "model", .jstr model),
        (s "tokens_used", tokensJson tok), (s "prompt", .jstr prompt),
        (s "response", .jstr response)]

/-- `log_llm_generation` (logger.py lines 48-73). -/
def logLlmGeneration (t prompt response model : List Char) (tok : Tokens)
    (fs : FileState) : Except (List Char) FileState :=
  appendEntry fs (genEntry t prompt response model tok)

/-- The report snapshot `{timestamp, step0..step4}`. -/
def reportEntry (t : List Char) (p0 p1 p2 p3 p4 : Json) : Json :=
  .obj [(s "timestamp", .jstr t), (s "step0", p0), (s "step1", p1),
        (s "step2", p2), (s "step3", p3), (s "step4", p4)]

/-- `log_report_data` (logger.py lines 75-92): overwrites the report file
with exactly one snapshot, regardless of previous content. -/
def logReportData (t : List Char) (p0 p1 p2 p3 p4 : Json) (_fs : FileState) :
    FileState :=
  .valid (reportEntry t p0 p1 p2 p3 p4)

/-! ## JSON encodings of the request payload (`model_dump()`) -/

/-- `model_dump()` of an optional string field. -/
def optStrJson (o : Option (List Char)) : Json :=
  match o with
  | none => .null
  | some c => .jstr c

/-- `model_dump()` of `Step0Data`. -/
def step0Json (d : Step0Data) : Json :=
  .obj [(s "values", .arr (d.values.map .jstr)),
        (s "interests", .arr (d.interests.map .jstr)),
        (s "strengths", .arr (d.strengths.map .jstr)),
        (s "mustHaveConstraints", .arr (d.mustHaveConstraints.map .jstr)),
        (s "niceToHaveConstraints", .arr (d.niceToHaveConstraints.map .jstr)),
        (s "concerns", optStrJson d.concerns)]

/-- `model_dump()` of `Step1Data`. -/
def step1Json (d : Step1Data) : Json :=
  .obj [(s "problemDefinition", optStrJson d.problemDefinition),
        (s "internalCues", .arr (d.internalCues.map .jstr)),
        (s "externalCues", .arr (d.externalCues.map .jstr)),
        (s "keyQuestions", .arr (d.keyQuestions.map .jstr))]

/-- `model_dump()` of `Step2Data`. -/
def step2Json (d : Step2Data) : Json :=
  .obj [(s "evaluationCriteria", .arr (d.evaluationCriteria.map .jstr)),
        (s "constraints", .arr (d.constraints.map .jstr)),
        (s "informationTemplate",
         .arr (d.informationTemplate.map (fun e => .obj (e.map (fun kv => (kv.1, .jstr kv.2))))))]

/-- The `data` dict logged by the generate-options handler. -/
def requestDataJson (req : GenerateOptionsRequest) : Json :=
  .obj [(s "step0", step0Json req.step0), (s "step1", step1Json req.step1),
        (s "step2", step2Json req.step2)]

/-! ## Response Parser and handler (`routers/llm.py`) -/

/-- Fence stripping (llm.py lines 81-84): if the content starts with a
```` ```json ```` or ```` ``` ```` marker, keep
`content.split(marker)[1].split("```")[0].strip()`. -/
def stripFence (content : List Char) : List Char :=
  if (s "```json").isPrefixOf content then
    pyStrip ((pySplit (s "```") ((pySplit (s "```json") content).getD 1 [])).getD 0 [])
  else if (s "```").isPrefixOf content then
    pyStrip ((pySplit (s "```") ((pySplit (s "```") content).getD 1 [])).getD 0 [])
  else content

/-- Python type name of a decoded JSON value (for exception messages). -/
def pyTypeName (j : Json) : List Char :=
  match j with
  | .null => s "NoneType"
  | .jbool _ => s "bool"
  | .num lex =>
    if lex.any (fun c => c = '.' || c = 'e' || c = 'E') ||
        lex = s "NaN" || lex = s "Infinity" || lex = s "-Infinity" then s "float"
    else s "int"
  | .jstr _ => s "str"
  | .arr _ => s "list"
  | .obj _ => s "dict"

/-- Message of the `AttributeError` raised by `parsed_response.get` when the
decoded value is not a dict. -/
def attrMsgGet (j : Json) : List Char :=
  s "\x27" ++ pyTypeName j ++ s "\x27 object has no attribute \x27get\x27"

/-- Message of the `TypeError` raised by `len(options)` when options has no
length. -/
def lenErrMsg (j : Json) : List Char :=
  s "object of type \x27" ++ pyTypeName j ++ s "\x27 has no len()"

/-- Message of the pydantic `ValidationError` raised when constructing
`GenerateOptionsResponse` with options that are not a list of dicts. -/
def validationErrMsg : List Char :=
  s "1 validation error for GenerateOptionsResponse"

/-- `parsed_response.get("options", [])`. -/
def pyDictGetD (mems : List (List Char × Json)) (k : List Char) (d : Json) : Json :=
  (List.lookup k mems).getD d

/-- Whether `len(x)` is defined for a decoded JSON value. -/
def hasLen (j : Json) : Bool :=
  match j with
  | .jstr _ => true
  | .arr _ => true
  | .obj _ => true
  | _ => false

/-- Whether a decoded JSON value is a dict. -/
def isObj (j : Json) : Bool :=
  match j with
  | .obj _ => true
  | _ => false

/-- The HTTP outcome of the generate-options handler: the success body
`{success: True, options, tokensUsed}` or an `HTTPException`. -/
inductive HandlerResponse where
  | success : List Json → Tokens → HandlerResponse
  | httpError : Nat → List Char → HandlerResponse

/-- The two per-session log files touched by the generate-options handler. -/
structure SessionState where
  activityFile : FileState
  generationFile : FileState

/-- `generate_options` (llm.py lines 49-115).  The external call is passed in
as `result`; `tAct` and `tGen` are the two `datetime.now().isoformat()`
samples taken by the two logger calls. -/
def runGenerateOptions (req : GenerateOptionsRequest) (result : ClientResult)
    (tAct tGen : List Char) (st : SessionState) : HandlerResponse × SessionState :=
  match logUserActivity tAct (s "generate_options_request") (requestDataJson req)
      st.activityFile with
  | .error e => (.httpError 500 e, st)
  | .ok newAct =>
    let st1 : SessionState := { st with activityFile := newAct }
    match result with
    | .failure e => (.httpError 500 e, st1)
    | .ok content tokens model =>
      let stripped := stripFence content
      match parseJson stripped with
      | none => (.httpError 500 (s "Failed to parse LLM response"), st1)
      | some parsed =>
        match parsed with
        | .obj mems =>
          let options := pyDictGetD mems (s "options") (.arr [])
          match logLlmGeneration tGen (s "Steps 0-2 data (see user_activity log)")
              stripped model tokens st1.generationFile with
          | .error e => (.httpError 500 e, st1)
          | .ok newGen =>
            let st2 : SessionState := { st1 with generationFile := newGen }
            if hasLen options then
              match options with
              | .arr l =>
                if l.all isObj then (.success l tokens, st2)
                else (.httpError 500 validationErrMsg, st2)
              | _ => (.httpError 500 validationErrMsg, st2)
            else (.httpError 500 (lenErrMsg options), st2)
        | other => (.httpError 500 (attrMsgGet other), st1)

/-- `save_report_data` (report.py lines 24-50): validates shape (pydantic)
then overwrites the report snapshot; always succeeds in the handler body. -/
def runSaveReport (t : List Char) (p0 p1 p2 p3 p4 : Json) (fs : FileState) : FileState :=
  logReportData t p0 p1 p2 p3 p4 fs

/-- The parsed-list view of a log file for which appends succeed: missing and
invalid files read as `[]`, a valid JSON array as its elements. -/
def logsView (fs : FileState) : Option (List Json) :=
  match fs with
  | .missing => some []
  | .invalid => some []
  | .valid (.arr l) => some l
  | _ => none

/-- A concrete request used by the witnesses (the spec's end-to-end
scenario). -/
def sampleStep0 : Step0Data := ⟨[s "growth"], [], [], [], [], none⟩

/-- Step-1 payload of the witness request. -/
def sampleStep1 : Step1Data := ⟨some (s "choose a job"), [], [], []⟩

/-- Step-2 payload of the witness request. -/
def sampleStep2 : Step2Data :=
  ⟨[s "salary"], [],
   [[(s "field", s "Core Role (coreRole)"), (s "description", s "main duty")]]⟩

/-- The witness request. -/
def sampleReq : GenerateOptionsRequest := ⟨s "s1", sampleStep0, sampleStep1, sampleStep2⟩

/-- A fresh session: neither log file exists yet. -/
def emptySession : SessionState := ⟨.missing, .missing⟩

/-- Token usage used by the witnesses. -/
def tok0 : Tokens := ⟨10, 20, 30⟩

/-- A valid JSON payload whose text contains a triple backtick inside a
string literal. -/
def cexJson : List Char := s "\x7b\"options\": [\x7b\"t\": \"a```b\"\x7d]\x7d"

/-- The Step-0 record with every list empty and concerns absent. -/
def emptyStep0 : Step0Data := ⟨[], [], [], [], [], none⟩

/-- The Step-1 record with every list empty and the problem definition absent. -/
def emptyStep1 : Step1Data := ⟨none, [], [], []⟩

/-- The Step-2 record with every list empty. -/
def emptyStep2 : Step2Data := ⟨[], [], []⟩

/-- Appending to a log file succeeds exactly on the `logsView` states, and
appends the entry at the end. -/
theorem appendEntry_ok (fs : FileState) (e : Json) (l : List Json)
    (h : logsView fs = some l) : appendEntry fs e = .ok (.valid (.arr (l ++ [e]))) := by
  cases fs with
  | missing => simp [logsView] at h; subst h; rfl
  | unreadable => simp [logsView] at h
  | invalid => simp [logsView] at h; subst h; rfl
  | valid j =>
    cases j <;> simp [logsView] at h
    subst h; rfl

/-! ## Library: `pySplit` against first-occurrence specifications -/

theorem isPrefixOf_iff_pre {l₁ l₂ : List Char} :
    l₁.isPrefixOf l₂ = true ↔ l₁ <+: l₂ := by
  induction l₁ generalizing l₂ with
  | nil => simp [List.isPrefixOf]
  | cons a t ih =>
    cases l₂ with
    | nil => simp [List.isPrefixOf]
    | cons b t₂ => simp [List.isPrefixOf, ih, List.cons_prefix_cons]

/-- The matching test inside `splitStep`, read as a suffix statement about
the piece scanned so far. -/
theorem splitStep_cond_iff (sep cur : List Char) (c : Char) :
    sep.reverse.isPrefixOf (c :: cur) = true ↔ sep <:+ cur.reverse ++ [c] := by
  rw [isPrefixOf_iff_pre, show (c :: cur) = (cur.reverse ++ [c]).reverse by simp,
    List.reverse_prefix]

/-- One non-matching step of the scan. -/
theorem splitStep_noMatch {sep cur : List Char} {c : Char}
    (h : ¬ sep.reverse.isPrefixOf (c :: cur) = true) (ps : List (List Char)) :
    splitStep sep (ps, cur) c = (ps, c :: cur) := by
  have h' : ¬ sep.reverse <+: c :: cur := fun hp => h (isPrefixOf_iff_pre.mpr hp)
  simp [splitStep, h']

/-- One matching step of the scan. -/
theorem splitStep_match {sep cur : List Char} {c : Char}
    (h : sep.reverse.isPrefixOf (c :: cur) = true) (ps : List (List Char)) :
    splitStep sep (ps, cur) c = (ps ++ [((c :: cur).drop sep.length).reverse], []) := by
  have h' : sep.reverse <+: c :: cur := isPrefixOf_iff_pre.mp h
  simp [splitStep, h']

/-- The pieces already emitted are carried through the scan untouched. -/
theorem foldl_splitStep_shift (sep t : List Char) :
    ∀ (ps : List (List Char)) (cur : List Char),
      t.foldl (splitStep sep) (ps, cur) =
        (ps ++ (t.foldl (splitStep sep) ([], cur)).1,
         (t.foldl (splitStep sep) ([], cur)).2) := by
  induction t with
  | nil => intro ps cur; simp
  | cons c t ih =>
    intro ps cur
    rw [List.foldl_cons, List.foldl_cons]
    by_cases h : sep.reverse.isPrefixOf (c :: cur) = true
    · rw [splitStep_match h ps, splitStep_match h [], List.nil_append,
        ih (ps ++ [((c :: cur).drop sep.length).reverse]) [],
        ih [((c :: cur).drop sep.length).reverse] []]
      simp
    · rw [splitStep_noMatch h ps, splitStep_noMatch h [],
        ih ps (c :: cur), ih [] (c :: cur)]

/-- A scan across text containing no separator occurrence just accumulates. -/
theorem foldl_splitStep_noMatch (sep : List Char) :
    ∀ (t : List Char) (ps : List (List Char)) (cur : List Char),
      (∀ (c : Char) (t₁ t₂ : List Char), t = t₁ ++ c :: t₂ →
        ¬ sep <:+ cur.reverse ++ t₁ ++ [c]) →
      t.foldl (splitStep sep) (ps, cur) = (ps, t.reverse ++ cur) := by
  intro t
  induction t with
  | nil => intro ps cur _; simp
  | cons c t ih =>
    intro ps cur h
    have h0 : ¬ sep <:+ cur.reverse ++ [c] := by
      have := h c [] t (by simp)
      simpa using this
    have hcond : ¬ sep.reverse.isPrefixOf (c :: cur) = true := by
      rw [splitStep_cond_iff]; exact h0
    rw [List.foldl_cons, splitStep_noMatch hcond ps, ih ps (c :: cur) ?_]
    · simp
    · intro c' t₁ t₂ ht
      have := h c' (c :: t₁) t₂ (by simp [ht])
      simpa [List.append_assoc] using this

/-- Scanning across exactly the separator, with the piece `a` pending and no
occurrence ending strictly inside, closes the piece `a`. -/
theorem foldl_splitStep_consume (sep a : List Char) :
    ∀ (w u : List Char) (ps : List (List Char)), sep = u ++ w → w ≠ [] →
      (∀ (c : Char) (t₁ t₂ : List Char), w = t₁ ++ c :: t₂ → t₂ ≠ [] →
          ¬ sep <:+ a ++ u ++ t₁ ++ [c]) →
      w.foldl (splitStep sep) (ps, (a ++ u).reverse) = (ps ++ [a], []) := by
  intro w
  induction w with
  | nil => intro u ps _ hne _; exact absurd rfl hne
  | cons c w ih =>
    intro u ps hsep _ h
    cases w with
    | nil =>
      have hcond : sep.reverse.isPrefixOf (c :: (a ++ u).reverse) = true := by
        rw [splitStep_cond_iff, List.reverse_reverse, List.append_assoc,
          show u ++ [c] = sep by simp [hsep]]
        exact List.suffix_append a sep
      rw [List.foldl_cons, splitStep_match hcond ps, List.foldl_nil,
        show ((c :: (a ++ u).reverse).drop sep.length).reverse = a by
          rw [show c :: (a ++ u).reverse = sep.reverse ++ a.reverse by
                simp [hsep, List.reverse_append],
            show sep.length = sep.reverse.length by simp,
            List.drop_left, List.reverse_reverse]]
    | cons c₂ w₂ =>
      have h0 : ¬ sep <:+ a ++ u ++ [c] := by
        have := h c [] (c₂ :: w₂) (by simp) (by simp)
        simpa using this
      have hcond : ¬ sep.reverse.isPrefixOf (c :: (a ++ u).reverse) = true := by
        rw [splitStep_cond_iff, List.reverse_reverse]
        exact h0
      rw [List.foldl_cons, splitStep_noMatch hcond ps,
        show c :: (a ++ u).reverse = (a ++ (u ++ [c])).reverse by
          simp [List.reverse_append],
        ih (u ++ [c]) ps (by simp [hsep]) (by simp) ?_]
      intro c' t₁ t₂ ht hne2
      have := h c' (c :: t₁) t₂ (by simp [ht]) hne2
      simpa [List.append_assoc] using this

theorem prefix_append_left {x y : List Char} (a : List Char) (h : x <+: y) :
    a ++ x <+: a ++ y := by
  obtain ⟨t, ht⟩ := h
  exact ⟨t, by rw [List.append_assoc, ht]⟩

theorem take_prefix_of_le {l : List Char} {i j : Nat} (h : i ≤ j) :
    l.take i <+: l.take j := by
  have heq : (l.take j).take i = l.take i := by
    rw [List.take_take, Nat.min_eq_left h]
  rw [← heq]
  exact List.take_prefix i (l.take j)

theorem prefix_of_append_of_le {p x y : List Char} (h : p <+: x ++ y)
    (hl : p.length ≤ x.length) : p <+: x := by
  have hp := List.prefix_iff_eq_take.mp h
  rw [List.take_append_of_le_length hl] at hp
  rw [hp]
  exact List.take_prefix _ _

/-- The separator-led decomposition of `str.split`: with no occurrence of
`sep` ending at or before the end of the explicit `sep`, the split emits `a`
and continues on `R`. -/
theorem pySplit_append_sep (sep a R : List Char) (hsep : sep ≠ [])
    (hno : ¬ sep <:+: a ++ sep.take (sep.length - 1)) :
    pySplit sep (a ++ sep ++ R) = a :: pySplit sep R := by
  have hA : ∀ (c : Char) (t₁ t₂ : List Char), a = t₁ ++ c :: t₂ →
      ¬ sep <:+ List.reverse [] ++ t₁ ++ [c] := by
    intro c t₁ t₂ ht hsfx
    simp only [List.reverse_nil, List.nil_append] at hsfx
    have hpre : t₁ ++ [c] <+: a := ⟨t₂, by rw [ht]; simp⟩
    exact hno (hsfx.isInfix.trans (hpre.trans (List.prefix_append a _)).isInfix)
  have hC : ∀ (c : Char) (t₁ t₂ : List Char), sep = t₁ ++ c :: t₂ → t₂ ≠ [] →
      ¬ sep <:+ a ++ [] ++ t₁ ++ [c] := by
    intro c t₁ t₂ ht hne hsfx
    have hlen : t₁.length + 1 ≤ sep.length - 1 := by
      have hslen : sep.length = t₁.length + 1 + t₂.length := by
        rw [ht]; simp [Nat.add_comm, Nat.add_assoc, Nat.add_left_comm]
      cases t₂ with
      | nil => exact absurd rfl hne
      | cons _ _ => simp at hslen; omega
    have htake : t₁ ++ [c] = sep.take (t₁.length + 1) := by
      rw [ht, List.take_append 1]
      simp
    have hpre : t₁ ++ [c] <+: sep.take (sep.length - 1) := by
      rw [htake]; exact take_prefix_of_le hlen
    have hfull : a ++ (t₁ ++ [c]) <+: a ++ sep.take (sep.length - 1) :=
      prefix_append_left a hpre
    refine hno (hsfx.isInfix.trans ?_)
    simpa [List.append_assoc] using hfull.isInfix
  simp only [pySplit]
  rw [List.foldl_append, List.foldl_append,
    foldl_splitStep_noMatch sep a [] [] hA,
    show a.reverse ++ [] = (a ++ []).reverse by simp,
    foldl_splitStep_consume sep a sep [] [] (by simp) hsep hC,
    List.nil_append,
    foldl_splitStep_shift sep R [a] []]
  simp

/-- `x.split(sep)` on occurrence-free text returns the single piece `x`. -/
theorem pySplit_no_occ (sep x : List Char) (hno : ¬ sep <:+: x) :
    pySplit sep x = [x] := by
  unfold pySplit
  rw [foldl_splitStep_noMatch sep x [] [] ?_]
  · simp
  · intro c t₁ t₂ ht hsfx
    simp only [List.reverse_nil, List.nil_append] at hsfx
    have hpre : t₁ ++ [c] <+: x := ⟨t₂, by rw [ht]; simp⟩
    exact hno (hsfx.isInfix.trans hpre.isInfix)

theorem not_infix_of_len {p x : List Char} (h : x.length < p.length) : ¬ p <:+: x :=
  fun hi => absurd hi.length_le (by omega)

/-- A `​```json` marker cannot occur in `J ++ "\n```"` when `J` is free of
triple backticks: an occurrence would need four characters after a triple
backtick, and only the final three exist. -/
theorem no_json_marker : ∀ (J : List Char), ¬ s "```" <:+: J →
    ¬ s "```json" <:+: J ++ s "\n```" := by
  intro J
  induction J with
  | nil => intro _; decide
  | cons c J ih =>
    intro hJ h
    rcases List.infix_cons_iff.mp h with hp | hi
    · by_cases hlen : 3 ≤ (c :: J).length
      · have h3 : s "```" <+: (c :: J) ++ s "\n```" :=
          (show s "```" <+: s "```json" by decide).trans hp
        refine hJ (prefix_of_append_of_le h3 ?_).isInfix
        rw [show (s "```").length = 3 from rfl]
        exact hlen
      · have hle := hp.length_le
        simp only [List.append_eq, List.length_cons, List.length_append,
          show (s "```json").length = 7 from rfl,
          show (s "\n```").length = 4 from rfl] at hle
        simp at hlen
        omega
    · exact ih (fun hx => hJ (List.infix_cons_iff.mpr (Or.inr hx))) hi

/-- A triple backtick cannot occur in `J ++ "\n``"` when `J` is free of
triple backticks: the only backtick run after `J` is two long and preceded
by a newline. -/
theorem no_triple_before_close : ∀ (J : List Char), ¬ s "```" <:+: J →
    ¬ s "```" <:+: J ++ s "\n``" := by
  intro J
  induction J with
  | nil => intro _; decide
  | cons c J ih =>
    intro hJ h
    rcases List.infix_cons_iff.mp h with hp | hi
    · by_cases hlen : 3 ≤ (c :: J).length
      · refine hJ (prefix_of_append_of_le hp ?_).isInfix
        rw [show (s "```").length = 3 from rfl]
        exact hlen
      · cases J with
        | nil =>
          rcases List.cons_prefix_cons.mp hp with ⟨_, hp2⟩
          rcases List.cons_prefix_cons.mp hp2 with ⟨hbad, _⟩
          exact absurd hbad (by decide)
        | cons d J2 =>
          cases J2 with
          | nil =>
            rcases List.cons_prefix_cons.mp hp with ⟨_, hp2⟩
            rcases List.cons_prefix_cons.mp hp2 with ⟨_, hp3⟩
            rcases List.cons_prefix_cons.mp hp3 with ⟨hbad, _⟩
            exact absurd hbad (by decide)
          | cons _ _ => simp at hlen
    · exact ih (fun hx => hJ (List.infix_cons_iff.mpr (Or.inr hx))) hi

/-! ## Library: whitespace stripping -/

theorem stripL_cons_ws {c : Char} (h : isPyWs c = true) (x : List Char) :
    stripL (c :: x) = stripL x := by
  simp [stripL, List.dropWhile_cons, h]

theorem pyStrip_cons_ws {c : Char} (h : isPyWs c = true) (x : List Char) :
    pyStrip (c :: x) = pyStrip x := by
  simp [pyStrip, stripL_cons_ws h]

theorem stripR_append_ws {c : Char} (h : isPyWs c = true) (x : List Char) :
    stripR (x ++ [c]) = stripR x := by
  simp [stripR, List.reverse_append, List.dropWhile_cons, h]

theorem pyStrip_append_ws {c : Char} (h : isPyWs c = true) (x : List Char) :
    pyStrip (x ++ [c]) = pyStrip x := by
  show stripR (stripL (x ++ [c])) = stripR (stripL x)
  unfold stripL
  rw [List.dropWhile_append]
  by_cases he : (x.dropWhile isPyWs).isEmpty
  · rw [if_pos he]
    rw [List.isEmpty_iff.mp he]
    simp [List.dropWhile_cons, h, List.dropWhile_nil]
  · rw [if_neg he]
    exact stripR_append_ws h _

/-! ## Library: the fence-stripping transformation on fenced content -/

theorem getD_zero {α : Type} (a : α) (l : List α) (d : α) : (a :: l).getD 0 d = a := rfl

theorem getD_one {α : Type} (a b : α) (l : List α) (d : α) : (a :: b :: l).getD 1 d = b := rfl

/-- On content of the form `​```json\n<J>\n​``` ` with `J` free of triple
backticks, the handler's fence stripping keeps exactly `J.strip()`. -/
theorem stripFence_fenced (J : List Char) (hJ : ¬ s "```" <:+: J) :
    stripFence (s "```json\n" ++ J ++ s "\n```") = pyStrip J := by
  have hcat1 : s "```json\n" = s "```json" ++ s "\n" := by decide
  have hcat2 : s "\n```" = s "\n" ++ s "```" := by decide
  have hshape : s "```json\n" ++ J ++ s "\n```"
      = s "```json" ++ ((s "\n" ++ J ++ s "\n") ++ s "```" ++ []) := by
    rw [hcat1, hcat2]; simp
  have hpre : (s "```json").isPrefixOf (s "```json\n" ++ J ++ s "\n```") = true := by
    rw [isPrefixOf_iff_pre, hshape]
    exact List.prefix_append _ _
  have hO2 : ¬ s "```" <:+: (s "\n" ++ J ++ s "\n") ++ (s "```").take ((s "```").length - 1) := by
    rw [show (s "```").take ((s "```").length - 1) = s "``" from by decide]
    rw [show (s "\n" ++ J ++ s "\n") ++ s "``" = '\n' :: (J ++ s "\n``") from by
      rw [show s "\n" = ['\n'] from rfl, show s "\n``" = ['\n'] ++ s "``" from by decide]
      simp]
    intro h
    rcases List.infix_cons_iff.mp h with hp | hi
    · rcases List.cons_prefix_cons.mp hp with ⟨hbad, _⟩
      exact absurd hbad (by decide)
    · exact no_triple_before_close J hJ hi
  have hO1 : ¬ s "```json" <:+: (s "\n" ++ J ++ s "\n") ++ s "```" ++ [] := by
    rw [show (s "\n" ++ J ++ s "\n") ++ s "```" ++ [] = '\n' :: (J ++ s "\n```") from by
      rw [hcat2, show s "\n" = ['\n'] from rfl]
      simp]
    intro h
    rcases List.infix_cons_iff.mp h with hp | hi
    · rcases List.cons_prefix_cons.mp hp with ⟨hbad, _⟩
      exact absurd hbad (by decide)
    · exact no_json_marker J hJ hi
  rw [stripFence, if_pos hpre, hshape,
    show s "```json" ++ ((s "\n" ++ J ++ s "\n") ++ s "```" ++ [])
        = [] ++ s "```json" ++ ((s "\n" ++ J ++ s "\n") ++ s "```" ++ []) from by simp,
    pySplit_append_sep (s "```json") [] _ (by decide) (not_infix_of_len (by decide)),
    pySplit_no_occ _ _ hO1, getD_one,
    pySplit_append_sep (s "```") (s "\n" ++ J ++ s "\n") [] (by decide) hO2, getD_zero,
    show s "\n" ++ J ++ s "\n" = '\n' :: (J ++ ['\n']) from by
      rw [show s "\n" = ['\n'] from rfl]; simp,
    pyStrip_cons_ws (by decide), pyStrip_append_ws (by decide)]

/-! ## Library: `json.loads` ignores surrounding Python whitespace -/

theorem foldl_step_err (t : List Char) : t.foldl step .err = .err := by
  induction t with
  | nil => rfl
  | cons c t ih => exact ih

/-- Feeding a Python-whitespace character either faults the machine or
leaves its final answer unchanged. -/
theorem step_pyWs (st : S) (c : Char) (h : isPyWs c = true) :
    step st c = .err ∨ final (step st c) = final st := by
  have hc : c = ' ' ∨ c = '\t' ∨ c = '\n' ∨ c = '\r' ∨ c = '\x0b' ∨ c = '\x0c' := by
    simpa [isPyWs, or_assoc] using h
  cases st with
  | err => exact Or.inl rfl
  | sval stk => rcases hc with rfl | rfl | rfl | rfl | rfl | rfl <;> first | exact Or.inl rfl | exact Or.inr rfl
  | sarrStart stk => rcases hc with rfl | rfl | rfl | rfl | rfl | rfl <;> first | exact Or.inl rfl | exact Or.inr rfl
  | sobjStart stk => rcases hc with rfl | rfl | rfl | rfl | rfl | rfl <;> first | exact Or.inl rfl | exact Or.inr rfl
  | sobjKey stk done => rcases hc with rfl | rfl | rfl | rfl | rfl | rfl <;> first | exact Or.inl rfl | exact Or.inr rfl
  | sobjColon stk done key => rcases hc with rfl | rfl | rfl | rfl | rfl | rfl <;> first | exact Or.inl rfl | exact Or.inr rfl
  | sstr stk k acc => rcases hc with rfl | rfl | rfl | rfl | rfl | rfl <;> first | exact Or.inl rfl | exact Or.inr rfl
  | sesc stk k acc => rcases hc with rfl | rfl | rfl | rfl | rfl | rfl <;> first | exact Or.inl rfl | exact Or.inr rfl
  | shex stk k acc hex => rcases hc with rfl | rfl | rfl | rfl | rfl | rfl <;> first | exact Or.inl rfl | exact Or.inr rfl
  | slit stk v e rest => rcases hc with rfl | rfl | rfl | rfl | rfl | rfl <;> exact Or.inl rfl
  | safter stk v =>
    rcases hc with rfl | rfl | rfl | rfl | rfl | rfl <;>
      first
        | exact Or.inr rfl
        | cases stk with
          | nil => exact Or.inl rfl
          | cons f rest => cases f <;> exact Or.inl rfl
  | snum stk acc =>
    rcases hc with rfl | rfl | rfl | rfl | rfl | rfl
    · by_cases hv : validNum acc = true
      · right
        rw [show step (.snum stk acc) ' '
            = (if validNum acc = true then S.safter stk (.num acc) else S.err) from rfl,
          if_pos hv]
        cases stk with
        | nil => simp [final, hv]
        | cons f rest => rfl
      · left
        rw [show step (.snum stk acc) ' '
            = (if validNum acc = true then S.safter stk (.num acc) else S.err) from rfl,
          if_neg hv]
    · by_cases hv : validNum acc = true
      · right
        rw [show step (.snum stk acc) '\t'
            = (if validNum acc = true then S.safter stk (.num acc) else S.err) from rfl,
          if_pos hv]
        cases stk with
        | nil => simp [final, hv]
        | cons f rest => rfl
      · left
        rw [show step (.snum stk acc) '\t'
            = (if validNum acc = true then S.safter stk (.num acc) else S.err) from rfl,
          if_neg hv]
    · by_cases hv : validNum acc = true
      · right
        rw [show step (.snum stk acc) '\n'
            = (if validNum acc = true then S.safter stk (.num acc) else S.err) from rfl,
          if_pos hv]
        cases stk with
        | nil => simp [final, hv]
        | cons f rest => rfl
      · left
        rw [show step (.snum stk acc) '\n'
            = (if validNum acc = true then S.safter stk (.num acc) else S.err) from rfl,
          if_neg hv]
    · by_cases hv : validNum acc = true
      · right
        rw [show step (.snum stk acc) '\r'
            = (if validNum acc = true then S.safter stk (.num acc) else S.err) from rfl,
          if_pos hv]
        cases stk with
        | nil => simp [final, hv]
        | cons f rest => rfl
      · left
        rw [show step (.snum stk acc) '\r'
            = (if validNum acc = true then S.safter stk (.num acc) else S.err) from rfl,
          if_neg hv]
    · left
      rw [show step (.snum stk acc) '\x0b'
          = (if validNum acc = true then stepAfter stk (.num acc) '\x0b' else S.err) from rfl]
      by_cases hv : validNum acc = true
      · rw [if_pos hv]
        cases stk with
        | nil => rfl
        | cons f rest => cases f <;> rfl
      · rw [if_neg hv]
    · left
      rw [show step (.snum stk acc) '\x0c'
          = (if validNum acc = true then stepAfter stk (.num acc) '\x0c' else S.err) from rfl]
      by_cases hv : validNum acc = true
      · rw [if_pos hv]
        cases stk with
        | nil => rfl
        | cons f rest => cases f <;> rfl
      · rw [if_neg hv]

/-- Trailing Python whitespace never changes an accepted parse. -/
theorem final_foldl_pyWs : ∀ (w : List Char), (∀ x ∈ w, isPyWs x = true) →
    ∀ (st : S) (v : Json), final (w.foldl step st) = some v → final st = some v := by
  intro w
  induction w with
  | nil => intro _ st v h; exact h
  | cons c w ih =>
    intro hall st v h
    rw [List.foldl_cons] at h
    rcases step_pyWs st c (hall c (by simp)) with he | hf
    · rw [he, foldl_step_err] at h
      exact absurd h (by simp [final])
    · rw [← hf]
      exact ih (fun x hx => hall x (by simp [hx])) (step st c) v h

theorem step_sval_ws {c : Char} (h : isPyWs c = true) (stk : List Ctx) :
    step (.sval stk) c = .sval stk ∨ step (.sval stk) c = .err := by
  have hc : c = ' ' ∨ c = '\t' ∨ c = '\n' ∨ c = '\r' ∨ c = '\x0b' ∨ c = '\x0c' := by
    simpa [isPyWs, or_assoc] using h
  rcases hc with rfl | rfl | rfl | rfl | rfl | rfl <;> first | exact Or.inl rfl | exact Or.inr rfl

theorem parseJson_cons_ws {c : Char} (h : isPyWs c = true) {t : List Char} {v : Json}
    (hp : parseJson (c :: t) = some v) : parseJson t = some v := by
  unfold parseJson at hp ⊢
  rw [List.foldl_cons] at hp
  rcases step_sval_ws h [] with hs | hs
  · rwa [hs] at hp
  · rw [hs, foldl_step_err] at hp
    exact absurd hp (by simp [final])

theorem parseJson_stripL {x : List Char} {v : Json} (h : parseJson x = some v) :
    parseJson (stripL x) = some v := by
  induction x with
  | nil => exact h
  | cons c t ih =>
    by_cases hw : isPyWs c = true
    · rw [stripL_cons_ws hw]
      exact ih (parseJson_cons_ws hw h)
    · rw [show stripL (c :: t) = c :: t by simp [stripL, List.dropWhile_cons, hw]]
      exact h

theorem parseJson_stripR {x : List Char} {v : Json} (h : parseJson x = some v) :
    parseJson (stripR x) = some v := by
  have hdecomp : x = stripR x ++ (x.reverse.takeWhile isPyWs).reverse := by
    conv_lhs => rw [← List.reverse_reverse x,
      ← List.takeWhile_append_dropWhile (p := isPyWs) (l := x.reverse)]
    rw [List.reverse_append]
    rfl
  have hall : ∀ y ∈ (x.reverse.takeWhile isPyWs).reverse, isPyWs y = true := by
    intro y hy
    exact List.mem_takeWhile_imp (by simpa using hy)
  rw [hdecomp] at h
  unfold parseJson at h ⊢
  rw [List.foldl_append] at h
  exact final_foldl_pyWs _ hall _ v h

/-- `json.loads` accepts the `str.strip()` of any text it accepts, with the
same result. -/
theorem parseJson_pyStrip {x : List Char} {v : Json} (h : parseJson x = some v) :
    parseJson (pyStrip x) = some v := by
  show parseJson (stripR (stripL x)) = some v
  exact parseJson_stripR (parseJson_stripL h)

/-- Content with no leading fence marker passes through fence stripping
unchanged. -/
theorem stripFence_no_fence {content : List Char} (h : ¬ s "```" <+: content) :
    stripFence content = content := by
  have h1 : ¬ (s "```json").isPrefixOf content = true := by
    rw [isPrefixOf_iff_pre]
    intro hp
    exact h ((show s "```" <+: s "```json" by decide).trans hp)
  have h2 : ¬ (s "```").isPrefixOf content = true := by
    rw [isPrefixOf_iff_pre]; exact h
  rw [stripFence, if_neg h1, if_neg h2]

/-! ## Claims about the Prompt Builder -/

/-- C1, counterexample: on the all-empty input the prompt is NOT free of
field lines — the `**Values**: ` line (and likewise Interests/Strengths) is
emitted unconditionally with an empty value, so the claim "contains no field
lines" fails. -/
theorem buildPrompt_empty_has_values_line :
    (pySplit (s "\n") (buildPrompt emptyStep0 emptyStep1 emptyStep2)).contains
      (s "**Values**: ") = true := by decide

/-- C1 (amended): on the all-empty Step-0/1/2 input the builder does not
crash (it is a total function) and produces exactly the section headers, the
three unconditional profile lines `**Values**: `, `**Interests**: `,
`**Strengths**: ` with empty values, the closing separator and instruction —
and no other field lines. -/
theorem buildPrompt_empty_exact :
    buildPrompt emptyStep0 emptyStep1 emptyStep2 =
      s "# User Profile and Decision Context\n\n## Step 0: Self Profile\n**Values**: \n**Interests**: \n**Strengths**: \n\n## Step 1: Problem Definition\n\n## Step 2: Evaluation Criteria\n\n---\nBased on this information, generate exactly 5 personalized career/decision options." := by decide

/-! ## Claims about the system-prompt field-key derivation -/

theorem not_infix_of_not_mem {c : Char} {l : List Char} (h : c ∉ l) : ¬ [c] <:+: l :=
  fun hi => h (hi.subset (by simp))

theorem toLower_ne_space {c : Char} (h : c ≠ ' ') : Char.toLower c ≠ ' ' := by
  unfold Char.toLower
  by_cases hc : c.toNat ≥ 65 ∧ c.toNat ≤ 90
  · simp only [if_pos hc]
    intro heq
    have hv : (c.toNat + 32).isValidChar := by
      left
      have := c.val.toNat_lt
      omega
    have htn : (Char.ofNat (c.toNat + 32)).toNat = c.toNat + 32 := by
      rw [Char.ofNat, dif_pos hv]
      rfl
    rw [heq] at htn
    have hsp : (' ').toNat = 32 := rfl
    omega
  · simp only [if_neg hc]
    exact h

/-- Replacing spaces by underscores commutes with ASCII lowercasing. -/
theorem replace_lower_comm (f : List Char) :
    pyLower (pyReplace f ' ' '_') = pyReplace (pyLower f) ' ' '_' := by
  unfold pyLower pyReplace
  rw [List.map_map, List.map_map]
  apply List.map_congr_left
  intro c _
  by_cases hc : c = ' '
  · subst hc; rfl
  · simp only [Function.comp_apply, if_neg hc, if_neg (toLower_ne_space hc)]

/-- C2: field-key derivation in the system-prompt builder.  For a label of
the form `Label (key)` (no parentheses inside the parts) the derived key is
exactly the parenthesized substring and the derived label is the text before
the parenthesis, trimmed; for a label with no parentheses the derived key is
the label lowercased with spaces replaced by underscores and the derived
label is the full label. -/
theorem fieldKey_derivation :
    (∀ (pre key d : List Char), '(' ∉ pre → ')' ∉ pre → '(' ∉ key → ')' ∉ key →
      deriveField (pre ++ '(' :: (key ++ [')'])) d
        = { key := key, label := pyStrip pre, description := d }) ∧
    (∀ (f d : List Char), '(' ∉ f → ')' ∉ f →
      deriveField f d
        = { key := pyReplace (pyLower f) ' ' '_', label := f, description := d }) := by
  constructor
  · intro pre key d hp1 _hp2 hk1 hk2
    have hguard : '(' ∈ pre ++ '(' :: (key ++ [')']) ∧ ')' ∈ pre ++ '(' :: (key ++ [')']) := by
      constructor
      · exact List.mem_append_right _ (by simp)
      · exact List.mem_append_right _ (by simp)
    have hsplit1 : pySplit (s "(") (pre ++ '(' :: (key ++ [')']))
        = pre :: pySplit (s "(") (key ++ [')']) := by
      have hx := pySplit_append_sep (s "(") pre (key ++ [')']) (by decide)
        (by
          rw [show List.take ((s "(").length - 1) (s "(") = [] from rfl, List.append_nil,
            show s "(" = ['('] from rfl]
          exact not_infix_of_not_mem hp1)
      simpa using hx
    have hsplit1R : pySplit (s "(") (key ++ [')']) = [key ++ [')']] := by
      refine pySplit_no_occ _ _ (not_infix_of_not_mem ?_)
      simp [hk1]
    have hsplit2 : pySplit (s ")") (key ++ [')']) = [key, []] := by
      have hx := pySplit_append_sep (s ")") key [] (by decide)
        (by
          rw [show List.take ((s ")").length - 1) (s ")") = [] from rfl, List.append_nil,
            show s ")" = [')'] from rfl]
          exact not_infix_of_not_mem hk2)
      simpa using hx
    rw [deriveField, if_pos hguard, hsplit1, hsplit1R, getD_one, getD_zero, hsplit2, getD_zero]
  · intro f d hf1 _hf2
    rw [deriveField, if_neg (fun hand => hf1 hand.1), replace_lower_comm]

/-- C2, witness: the derivation evaluated on the spec's example label
`Core Role (coreRole)` and on its parenthesis-free variant. -/
theorem fieldKey_derivation_witness :
    deriveField (s "Core Role (coreRole)") (s "main duty")
        = { key := s "coreRole", label := s "Core Role", description := s "main duty" } ∧
      deriveField (s "Core Role") (s "main duty")
        = { key := s "core_role", label := s "Core Role", description := s "main duty" } := by
  constructor
  · rw [show s "Core Role (coreRole)" = s "Core Role " ++ '(' :: (s "coreRole" ++ [')'])
        from by decide,
      fieldKey_derivation.1 (s "Core Role ") (s "coreRole") (s "main duty")
        (by decide) (by decide) (by decide) (by decide),
      show pyStrip (s "Core Role ") = s "Core Role" from by decide]
  · rw [fieldKey_derivation.2 (s "Core Role") (s "main duty") (by decide) (by decide),
      show pyReplace (pyLower (s "Core Role")) ' ' '_' = s "core_role" from by decide]

/-! ## Claims about the Activity Logger -/

/-- C6, counterexample: an existing but unreadable log file does not lead to
a fresh single-entry file; `open()` raises an `OSError` that the logger does
not catch (it only catches `json.JSONDecodeError`), so the append operation
fails and nothing is written. -/
theorem append_unreadable_raises :
    logUserActivity (s "t") (s "generate_options_request") .null .unreadable
        = .error permErrMsg ∧
      logUserActivity (s "t") (s "generate_options_request") .null .unreadable
        ≠ .ok (.valid (.arr [activityEntry (s "t") (s "generate_options_request") .null])) :=
  ⟨rfl, fun h => nomatch h⟩

/-- C6 (amended): for both append operations, when the existing log file
does not contain valid JSON the old content is discarded and a fresh
sequence holding only the new entry is written; an unreadable file instead
raises an error that propagates out of the logger. -/
theorem append_invalid_resets (t atype : List Char) (data : Json)
    (p r m : List Char) (tok : Tokens) :
    logUserActivity t atype data .invalid
        = .ok (.valid (.arr [activityEntry t atype data])) ∧
      logLlmGeneration t p r m tok .invalid
        = .ok (.valid (.arr [genEntry t p r m tok])) :=
  ⟨rfl, rfl⟩

/-- C7: saving the report twice for a session, with different payloads,
leaves exactly one snapshot on disk: the second call's payload with keys
timestamp, step0..step4; the first payload is not retained. -/
theorem saveReport_overwrite (t1 t2 : List Char) (p0 p1 p2 p3 p4 q0 q1 q2 q3 q4 : Json)
    (fs : FileState) (_hne : (p0, p1, p2, p3, p4) ≠ (q0, q1, q2, q3, q4)) :
    runSaveReport t2 q0 q1 q2 q3 q4 (runSaveReport t1 p0 p1 p2 p3 p4 fs)
      = .valid (.obj [(s "timestamp", .jstr t2), (s "step0", q0), (s "step1", q1),
          (s "step2", q2), (s "step3", q3), (s "step4", q4)]) := rfl

/-- C7, witness: two concrete distinct payloads; after the second save only
the second snapshot remains. -/
theorem saveReport_overwrite_witness :
    runSaveReport (s "t2") (.jbool true) .null .null .null .null
        (runSaveReport (s "t1") .null .null .null .null .null .missing)
      = .valid (.obj [(s "timestamp", .jstr (s "t2")), (s "step0", .jbool true),
          (s "step1", .null), (s "step2", .null), (s "step3", .null), (s "step4", .null)]) :=
  saveReport_overwrite (s "t1") (s "t2") .null .null .null .null .null
    (.jbool true) .null .null .null .null .missing (fun h => nomatch h)

/-! ## Claims about the Response Parser / handler error paths -/

/-- C3: whenever the fence-stripped client content fails to decode as JSON,
the handler responds HTTP 500 with the fixed "Failed to parse LLM response"
detail — no partial or garbage result is returned. -/
theorem parse_failure_fixed_500 (req : GenerateOptionsRequest)
    (content : List Char) (tok : Tokens) (mdl tA tG : List Char)
    (st : SessionState) (la : List Json)
    (ha : logsView st.activityFile = some la)
    (hp : parseJson (stripFence content) = none) :
    (runGenerateOptions req (.ok content tok mdl) tA tG st).fst
      = .httpError 500 (s "Failed to parse LLM response") := by
  unfold runGenerateOptions logUserActivity
  rw [appendEntry_ok _ _ _ ha]
  simp only [hp]

/-- C3, witness: a plain non-JSON response yields the fixed parse-failure
error on a fresh session. -/
theorem parse_failure_fixed_500_witness :
    (runGenerateOptions sampleReq (.ok (s "hello") tok0 (s "gpt-4o")) (s "t1") (s "t2")
        emptySession).fst = .httpError 500 (s "Failed to parse LLM response") :=
  parse_failure_fixed_500 sampleReq (s "hello") tok0 (s "gpt-4o") (s "t1") (s "t2")
    emptySession [] rfl rfl

/-- C5: when the Generation Client yields a failure result (the service
normalizes any external-call exception into the failure dict rather than
propagating it), the handler responds HTTP 500 with that error as detail —
an `httpError` response carries no options field — and nothing is appended
to the generation log; only the activity entry logged before the call is
written. -/
theorem client_failure_500_no_genlog (req : GenerateOptionsRequest)
    (e mdl tA tG : List Char) (st : SessionState) (la : List Json)
    (ha : logsView st.activityFile = some la) :
    (runGenerateOptions req (serviceGenerateOptions (.error e) mdl) tA tG st).fst
        = .httpError 500 e ∧
      (runGenerateOptions req (serviceGenerateOptions (.error e) mdl) tA tG st).snd.generationFile
        = st.generationFile ∧
      (runGenerateOptions req (serviceGenerateOptions (.error e) mdl) tA tG st).snd.activityFile
        = .valid (.arr (la ++
            [activityEntry tA (s "generate_options_request") (requestDataJson req)])) := by
  unfold runGenerateOptions logUserActivity serviceGenerateOptions
  rw [appendEntry_ok _ _ _ ha]
  exact ⟨rfl, rfl, rfl⟩

/-- C5, witness: a concrete failed external call on a fresh session. -/
theorem client_failure_500_no_genlog_witness :
    (runGenerateOptions sampleReq (serviceGenerateOptions (.error (s "boom")) (s "gpt-4o"))
        (s "t1") (s "t2") emptySession).fst = .httpError 500 (s "boom") ∧
      (runGenerateOptions sampleReq (serviceGenerateOptions (.error (s "boom")) (s "gpt-4o"))
        (s "t1") (s "t2") emptySession).snd.generationFile = emptySession.generationFile ∧
      (runGenerateOptions sampleReq (serviceGenerateOptions (.error (s "boom")) (s "gpt-4o"))
        (s "t1") (s "t2") emptySession).snd.activityFile
        = .valid (.arr ([] ++
            [activityEntry (s "t1") (s "generate_options_request") (requestDataJson sampleReq)])) :=
  client_failure_500_no_genlog sampleReq (s "boom") (s "gpt-4o") (s "t1") (s "t2")
    emptySession [] rfl

/-- C9: when the fence-stripped content decodes to a JSON object with no
`options` key, the handler treats the options as the empty list and returns
success with that empty list as-is. -/
theorem options_key_missing_empty (req : GenerateOptionsRequest)
    (content : List Char) (tok : Tokens) (mdl tA tG : List Char)
    (st : SessionState) (la lg : List Json) (mems : List (List Char × Json))
    (ha : logsView st.activityFile = some la)
    (hg : logsView st.generationFile = some lg)
    (hp : parseJson (stripFence content) = some (.obj mems))
    (hk : List.lookup (s "options") mems = none) :
    (runGenerateOptions req (.ok content tok mdl) tA tG st).fst = .success [] tok := by
  unfold runGenerateOptions logUserActivity logLlmGeneration
  rw [appendEntry_ok _ _ _ ha]
  simp only [hp]
  rw [show pyDictGetD mems (s "options") (.arr []) = .arr [] by
    simp [pyDictGetD, hk]]
  rw [appendEntry_ok _ _ _ hg]
  rfl

/-- C9, witness: a response decoding to `{"noopts": 1}` yields success with
an empty options list. -/
theorem options_key_missing_empty_witness :
    (runGenerateOptions sampleReq (.ok (s "\x7b\"noopts\": 1\x7d") tok0 (s "gpt-4o"))
        (s "t1") (s "t2") emptySession).fst = .success [] tok0 :=
  options_key_missing_empty sampleReq (s "\x7b\"noopts\": 1\x7d") tok0 (s "gpt-4o")
    (s "t1") (s "t2") emptySession [] [] [(s "noopts", .num (s "1"))] rfl rfl rfl rfl

/-- C10: when the fence-stripped content decodes to valid JSON that is not
an object, the handler responds HTTP 500 whose detail is the message of the
`AttributeError` raised by `.get` — not the fixed parse-failure message,
which is reserved for JSON decoding errors. -/
theorem non_object_json_attribute_error (req : GenerateOptionsRequest)
    (content : List Char) (tok : Tokens) (mdl tA tG : List Char)
    (st : SessionState) (la : List Json) (j : Json)
    (ha : logsView st.activityFile = some la)
    (hp : parseJson (stripFence content) = some j)
    (hno : ∀ mems, j ≠ .obj mems) :
    (runGenerateOptions req (.ok content tok mdl) tA tG st).fst
        = .httpError 500 (attrMsgGet j) ∧
      attrMsgGet j ≠ s "Failed to parse LLM response" := by
  constructor
  · unfold runGenerateOptions logUserActivity
    rw [appendEntry_ok _ _ _ ha]
    cases j with
    | obj mems => exact absurd rfl (hno mems)
    | null => simp only [hp]
    | jbool b => simp only [hp]
    | num lex => simp only [hp]
    | jstr cs => simp only [hp]
    | arr l => simp only [hp]
  · intro heq
    have hhead : (attrMsgGet j).head? = some '\x27' := by
      rw [show attrMsgGet j = '\x27' :: (pyTypeName j ++ s "\x27 object has no attribute \x27get\x27")
        from rfl]
      rfl
    rw [heq] at hhead
    exact absurd hhead (by decide)

/-- C10, witness: a response decoding to a top-level array triggers the
AttributeError path with the list type name in the message. -/
theorem non_object_json_attribute_error_witness :
    (runGenerateOptions sampleReq (.ok (s "[1, 2]") tok0 (s "gpt-4o"))
        (s "t1") (s "t2") emptySession).fst
        = .httpError 500 (attrMsgGet (.arr [.num (s "1"), .num (s "2")])) ∧
      attrMsgGet (.arr [.num (s "1"), .num (s "2")]) ≠ s "Failed to parse LLM response" :=
  non_object_json_attribute_error sampleReq (s "[1, 2]") tok0 (s "gpt-4o") (s "t1") (s "t2")
    emptySession [] (.arr [.num (s "1"), .num (s "2")]) rfl rfl (fun _ h => nomatch h)

/-! ## Claims about log accumulation across calls -/

theorem appendEntry_ok_inv {fs : FileState} {e : Json} {fs' : FileState}
    (h : appendEntry fs e = .ok fs') :
    ∃ l, logsView fs = some l ∧ fs' = .valid (.arr (l ++ [e])) := by
  cases fs with
  | missing =>
    injection h with h1
    exact ⟨[], rfl, h1.symm⟩
  | unreadable => exact Except.noConfusion h
  | invalid =>
    injection h with h1
    exact ⟨[], rfl, h1.symm⟩
  | valid j =>
    cases j with
    | arr l =>
      injection h with h1
      exact ⟨l, rfl, h1.symm⟩
    | null => exact Except.noConfusion h
    | jbool b => exact Except.noConfusion h
    | num lex => exact Except.noConfusion h
    | jstr cs => exact Except.noConfusion h
    | obj mems => exact Except.noConfusion h

/-- A successful generate-options call reads both log files as lists and
leaves each with exactly one more entry, carrying the sampled timestamps. -/
theorem run_ok_snd (req : GenerateOptionsRequest) (c : List Char) (tok : Tokens)
    (mdl tA tG : List Char) (st : SessionState) (o : List Json) (k : Tokens)
    (hs : (runGenerateOptions req (.ok c tok mdl) tA tG st).fst = .success o k) :
    ∃ la lg, logsView st.activityFile = some la ∧ logsView st.generationFile = some lg ∧
      (runGenerateOptions req (.ok c tok mdl) tA tG st).snd
        = ⟨.valid (.arr (la ++ [activityEntry tA (s "generate_options_request")
              (requestDataJson req)])),
           .valid (.arr (lg ++ [genEntry tG (s "Steps 0-2 data (see user_activity log)")
              (stripFence c) mdl tok]))⟩ := by
  unfold runGenerateOptions logUserActivity logLlmGeneration at hs ⊢
  dsimp only at hs ⊢
  cases hA : appendEntry st.activityFile
      (activityEntry tA (s "generate_options_request") (requestDataJson req)) with
  | error e =>
    rw [hA] at hs
    exact absurd hs (fun hh => nomatch hh)
  | ok newAct =>
    rw [hA] at hs
    dsimp only at hs ⊢
    cases hP : parseJson (stripFence c) with
    | none =>
      rw [hP] at hs
      exact absurd hs (fun hh => nomatch hh)
    | some parsed =>
      rw [hP] at hs
      cases parsed with
      | obj mems =>
        dsimp only at hs ⊢
        cases hG : appendEntry st.generationFile
            (genEntry tG (s "Steps 0-2 data (see user_activity log)") (stripFence c) mdl tok) with
        | error e2 =>
          rw [hG] at hs
          exact absurd hs (fun hh => nomatch hh)
        | ok newGen =>
          dsimp only
          obtain ⟨la, hla, haN⟩ := appendEntry_ok_inv hA
          obtain ⟨lg, hlg, hgN⟩ := appendEntry_ok_inv hG
          refine ⟨la, lg, hla, hlg, ?_⟩
          subst haN
          subst hgN
          by_cases hl : hasLen (pyDictGetD mems (s "options") (.arr [])) = true
          · rw [if_pos hl]
            cases pyDictGetD mems (s "options") (.arr []) with
            | arr a =>
              dsimp only
              by_cases ho : a.all isObj = true
              · rw [if_pos ho]
              · rw [if_neg ho]
            | null => rfl
            | jbool b => rfl
            | num lex => rfl
            | jstr cs => rfl
            | obj mems2 => rfl
          · rw [if_neg hl]
      | null =>
        dsimp only at hs
        exact absurd hs (fun hh => nomatch hh)
      | jbool b =>
        dsimp only at hs
        exact absurd hs (fun hh => nomatch hh)
      | num lex =>
        dsimp only at hs
        exact absurd hs (fun hh => nomatch hh)
      | jstr cs =>
        dsimp only at hs
        exact absurd hs (fun hh => nomatch hh)
      | arr l =>
        dsimp only at hs
        exact absurd hs (fun hh => nomatch hh)

/-- C8: two sequential successful generate-options calls on a fresh session
leave exactly two entries in the session's activity log and two in its
generation log, in call order; each entry carries the clock sample taken by
its call, and the samples are distinct. -/
theorem two_calls_two_entries
    (req1 req2 : GenerateOptionsRequest) (c1 c2 : List Char) (tok1 tok2 : Tokens)
    (m1 m2 tA1 tG1 tA2 tG2 : List Char) (o1 o2 : List Json) (k1 k2 : Tokens)
    (hA : tA1 ≠ tA2) (hG : tG1 ≠ tG2)
    (hs1 : (runGenerateOptions req1 (.ok c1 tok1 m1) tA1 tG1 emptySession).fst
        = .success o1 k1)
    (hs2 : (runGenerateOptions req2 (.ok c2 tok2 m2) tA2 tG2
        (runGenerateOptions req1 (.ok c1 tok1 m1) tA1 tG1 emptySession).snd).fst
        = .success o2 k2) :
    (runGenerateOptions req2 (.ok c2 tok2 m2) tA2 tG2
        (runGenerateOptions req1 (.ok c1 tok1 m1) tA1 tG1 emptySession).snd).snd
      = ⟨.valid (.arr [activityEntry tA1 (s "generate_options_request") (requestDataJson req1),
                       activityEntry tA2 (s "generate_options_request") (requestDataJson req2)]),
         .valid (.arr [genEntry tG1 (s "Steps 0-2 data (see user_activity log)")
                         (stripFence c1) m1 tok1,
                       genEntry tG2 (s "Steps 0-2 data (see user_activity log)")
                         (stripFence c2) m2 tok2])⟩
      ∧ tA1 ≠ tA2 ∧ tG1 ≠ tG2 := by
  obtain ⟨la1, lg1, hla1, hlg1, hsnd1⟩ :=
    run_ok_snd req1 c1 tok1 m1 tA1 tG1 emptySession o1 k1 hs1
  have hla1e : la1 = [] := by
    have h1 := hla1.symm.trans (show logsView emptySession.activityFile = some [] from rfl)
    exact Option.some.inj h1
  have hlg1e : lg1 = [] := by
    have h1 := hlg1.symm.trans (show logsView emptySession.generationFile = some [] from rfl)
    exact Option.some.inj h1
  subst hla1e
  subst hlg1e
  obtain ⟨la2, lg2, hla2, hlg2, hsnd2⟩ :=
    run_ok_snd req2 c2 tok2 m2 tA2 tG2 _ o2 k2 hs2
  rw [hsnd1] at hla2 hlg2
  have hla2e : la2 = [activityEntry tA1 (s "generate_options_request") (requestDataJson req1)] := by
    have h0 : logsView (FileState.valid (.arr ([] ++ [activityEntry tA1
        (s "generate_options_request") (requestDataJson req1)])))
        = some [activityEntry tA1 (s "generate_options_request") (requestDataJson req1)] := rfl
    exact Option.some.inj (hla2.symm.trans h0)
  have hlg2e : lg2 = [genEntry tG1 (s "Steps 0-2 data (see user_activity log)")
      (stripFence c1) m1 tok1] := by
    have h0 : logsView (FileState.valid (.arr ([] ++ [genEntry tG1
        (s "Steps 0-2 data (see user_activity log)") (stripFence c1) m1 tok1])))
        = some [genEntry tG1 (s "Steps 0-2 data (see user_activity log)") (stripFence c1) m1 tok1] := rfl
    exact Option.some.inj (hlg2.symm.trans h0)
  subst hla2e
  subst hlg2e
  rw [hsnd1] at hsnd2 ⊢
  rw [hsnd2]
  exact ⟨rfl, hA, hG⟩

/-- C8, witness: two concrete successful calls with distinct timestamps on a
fresh session. -/
theorem two_calls_two_entries_witness :
    (runGenerateOptions sampleReq (.ok (s "\x7b\"options\": []\x7d") tok0 (s "gpt-4o"))
        (s "t3") (s "t4")
        (runGenerateOptions sampleReq (.ok (s "\x7b\"options\": []\x7d") tok0 (s "gpt-4o"))
          (s "t1") (s "t2") emptySession).snd).snd
      = ⟨.valid (.arr [activityEntry (s "t1") (s "generate_options_request") (requestDataJson sampleReq),
                       activityEntry (s "t3") (s "generate_options_request") (requestDataJson sampleReq)]),
         .valid (.arr [genEntry (s "t2") (s "Steps 0-2 data (see user_activity log)")
                         (stripFence (s "\x7b\"options\": []\x7d")) (s "gpt-4o") tok0,
                       genEntry (s "t4") (s "Steps 0-2 data (see user_activity log)")
                         (stripFence (s "\x7b\"options\": []\x7d")) (s "gpt-4o") tok0])⟩
      ∧ s "t1" ≠ s "t3" ∧ s "t2" ≠ s "t4" :=
  two_calls_two_entries sampleReq sampleReq (s "\x7b\"options\": []\x7d")
    (s "\x7b\"options\": []\x7d") tok0 tok0 (s "gpt-4o") (s "gpt-4o")
    (s "t1") (s "t2") (s "t3") (s "t4") [] [] tok0 tok0
    (by decide) (by decide) rfl rfl

/-! ## Claims about the fenced round-trip -/

/-- C4, counterexample: a valid JSON `{"options": [...]}` whose text contains
a triple backtick inside a string literal.  Unfenced it parses and the
handler succeeds; wrapped in a ```json fence the `split("```")` cuts the
payload at the inner backticks, the parse fails, and the handler returns
the fixed parse error — so the claim as stated (for every valid JSON) is
false. -/
theorem fenced_roundtrip_cex :
    (runGenerateOptions sampleReq (.ok (s "```json\n" ++ cexJson ++ s "\n```") tok0 (s "gpt-4o"))
        (s "t1") (s "t2") emptySession).fst = .httpError 500 (s "Failed to parse LLM response") ∧
      (runGenerateOptions sampleReq (.ok cexJson tok0 (s "gpt-4o")) (s "t1") (s "t2")
        emptySession).fst = .success [.obj [(s "t", .jstr (s "a```b"))]] tok0 ∧
      (runGenerateOptions sampleReq (.ok (s "```json\n" ++ cexJson ++ s "\n```") tok0 (s "gpt-4o"))
          (s "t1") (s "t2") emptySession).fst
        ≠ (runGenerateOptions sampleReq (.ok cexJson tok0 (s "gpt-4o")) (s "t1") (s "t2")
            emptySession).fst :=
  ⟨rfl, rfl, fun h => nomatch h⟩

/-- C4 (amended): for every raw response that is valid JSON
`{"options": [...]}` containing no occurrence of the fence marker ``` ,
wrapping it in a ```json fenced block leaves the handler's HTTP outcome —
in particular the extracted options array — exactly as for the bare JSON
text. -/
theorem fenced_roundtrip (J : List Char) (mems : List (List Char × Json)) (opts : List Json)
    (req : GenerateOptionsRequest) (tok : Tokens) (mdl tA tG : List Char) (st : SessionState)
    (hJ : ¬ s "```" <:+: J)
    (hp : parseJson J = some (.obj mems))
    (_hopts : List.lookup (s "options") mems = some (.arr opts)) :
    (runGenerateOptions req (.ok (s "```json\n" ++ J ++ s "\n```") tok mdl) tA tG st).fst
      = (runGenerateOptions req (.ok J tok mdl) tA tG st).fst := by
  have hsf : stripFence (s "```json\n" ++ J ++ s "\n```") = pyStrip J := stripFence_fenced J hJ
  have hid : stripFence J = J := stripFence_no_fence (fun hpre => hJ hpre.isInfix)
  have hps : parseJson (pyStrip J) = some (.obj mems) := parseJson_pyStrip hp
  unfold runGenerateOptions logUserActivity logLlmGeneration
  dsimp only
  rw [hsf, hid, hps, hp]
  cases hA : appendEntry st.activityFile
      (activityEntry tA (s "generate_options_request") (requestDataJson req)) with
  | error e => rfl
  | ok newAct =>
    dsimp only
    unfold appendEntry
    cases hR : readLogs st.generationFile with
    | error e2 => rfl
    | ok j =>
      cases j with
      | arr l =>
        dsimp only
        by_cases hl : hasLen (pyDictGetD mems (s "options") (.arr [])) = true
        · rw [if_pos hl, if_pos hl]
          cases hopt : pyDictGetD mems (s "options") (.arr []) with
          | arr a =>
            dsimp only
            by_cases ho : a.all isObj = true
            · rw [if_pos ho, if_pos ho]
            · rw [if_neg ho, if_neg ho]
          | null => rfl
          | jbool b => rfl
          | num lex => rfl
          | jstr cs => rfl
          | obj mems2 => rfl
        · rw [if_neg hl, if_neg hl]
      | null => rfl
      | jbool b => rfl
      | num lex => rfl
      | jstr cs => rfl
      | obj mems2 => rfl

/-- C4, witness for the amended round-trip: a backtick-free
`{"options": []}` behaves identically fenced and unfenced. -/
theorem fenced_roundtrip_witness :
    (runGenerateOptions sampleReq
        (.ok (s "```json\n" ++ s "\x7b\"options\": []\x7d" ++ s "\n```") tok0 (s "gpt-4o"))
        (s "t1") (s "t2") emptySession).fst
      = (runGenerateOptions sampleReq (.ok (s "\x7b\"options\": []\x7d") tok0 (s "gpt-4o"))
          (s "t1") (s "t2") emptySession).fst :=
  fenced_roundtrip (s "\x7b\"options\": []\x7d") [(s "options", .arr [])] [] sampleReq tok0
    (s "gpt-4o") (s "t1") (s "t2") emptySession (by decide) rfl rfl

/-! ## Concrete evaluations of the embedded `json.loads` and helpers -/

example : parseJson (s "\x7b\"options\": []\x7d") =
    some (.obj [(s "options", .arr [])]) := rfl

example : parseJson (s "hello") = none := rfl

example : parseJson (s " [1, 2.5e3, \"a\\n\", true, null] ") =
    some (.arr [.num (s "1"), .num (s "2.5e3"), .jstr (s "a\n"), .jbool true, .null]) := rfl

example : parseJson (s "\x7b\"a\": 1, \"a\": 2\x7d") =
    some (.obj [(s "a", .num (s "2"))]) := rfl

example : parseJson (s "[1,]") = none := rfl

example : parseJson (s "\x7b\"options\": [\x7b\"t\": \"a```b\"\x7d]\x7d") =
    some (.obj [(s "options", .arr [.obj [(s "t", .jstr (s "a```b"))]])]) := rfl

example : pySplit (s "aa") (s "xaaa") = [s "x", s "a"] := rfl

example : pyStrip (s " \n ab c\x0c ") = s "ab c" := rfl

example : stripFence (s "```json\n" ++ cexJson ++ s "\n```")
    = s "\x7b\"options\": [\x7b\"t\": \"a" := rfl

example : stripFence (s "```json\n\x7b\"options\": []\x7d\n```")
    = s "\x7b\"options\": []\x7d" := rfl

end Prism
